import Mathlib

/-!
# Verification of the polymarket-insider trade-analysis core

Shallow embedding of the trade-analysis and pattern-detection engine of the
`polymarket-insider` repository, together with theorems checking its
natural-language specification.

Conventions of the embedding:
* Python floats are modelled as exact rationals (`ℚ`); `datetime` values are
  modelled as integer Unix seconds.
* Addresses, transaction hashes, token ids and market ids are strings in the
  source; they are modelled as `Nat` identifiers (only equality of these
  values is ever used by the analysed code).
* Human-readable `description`/`reason` strings carried by alerts and pattern
  matches are cosmetic and omitted from the records.
* `Optional`/missing dictionary fields are modelled with `Option`.
-/

namespace PolymarketInsider

/-- Severity tag of a pattern match (`'LOW' | 'MEDIUM' | 'HIGH'` strings in the
source). -/
inductive Severity where
  | LOW
  | MEDIUM
  | HIGH
deriving DecidableEq

/-- Risk tier returned by `InsiderDetector._calculate_risk_score`. -/
inductive RiskLevel where
  | LOW
  | MEDIUM
  | HIGH
  | CRITICAL
deriving DecidableEq

/-- The `type` tags of the six pattern rules of
`InsiderDetector._detect_insider_patterns`. -/
inductive PatternType where
  | NEW_WALLET_LARGE_TRADE
  | UNUSUALLY_LARGE_TRADE
  | EXPIRING_MARKET_ACTIVITY
  | SUDDEN_ACTIVITY
  | CONCENTRATED_TRADING
  | IMBALANCED_TRADING
deriving DecidableEq

/-- One pattern match dict appended by `_detect_insider_patterns`
(the cosmetic `description` string is omitted). -/
structure Pattern where
  type : PatternType
  confidence : ℚ
  severity : Severity
deriving DecidableEq

/-- A raw trade dict as consumed by `InsiderDetector`
(`trade_data` in the source): only the fields the analysed code reads.
`maker = none` models a missing/empty maker address; `token_id`/`market_id`
model `trade_data['token']['id']` and `trade_data['token']['market']['id']`;
`end_date` models `trade_data['token']['market']['endDate']` in seconds (an
absent key or a falsy raw value such as 0 is `none`, matching the source's
`if context['end_date']:` truthiness test). -/
structure TradeData where
  maker : Option Nat
  amount : ℚ
  price : ℚ
  token_id : Option Nat
  market_id : Option Nat
  end_date : Option Int
deriving DecidableEq

/-- Embedding of `InsiderDetector._calculate_trade_size_usd`:
`float(amount) * float(price) * 1000`.  (The `except` branch for unparseable
strings cannot arise in the typed model.) -/
def calculate_trade_size_usd (amount price : ℚ) : ℚ :=
  amount * price * 1000

/-- The trade size in USD of a raw trade dict. -/
def TradeData.size_usd (t : TradeData) : ℚ :=
  calculate_trade_size_usd t.amount t.price

/-- The `type` field of a raw activity record returned by
`goldsky_client.get_user_activity`; every value other than `'BUY'`/`'SELL'`
is modelled as `OTHER`. -/
inductive ActivityType where
  | BUY
  | SELL
  | OTHER
deriving DecidableEq

/-- A raw activity record (`activity` in `_analyze_wallet_behavior`).
`price = none` models a missing `'price'` key (the source defaults it to 1);
`market_id = none` models a record without `'token'`/`'market'` keys. -/
structure Activity where
  timestamp : Int
  type : ActivityType
  amount : ℚ
  price : Option ℚ
  market_id : Option Nat
deriving DecidableEq

/-- The wallet-behaviour analysis dict built by
`InsiderDetector._analyze_wallet_behavior` (the `cache_time` bookkeeping
field is omitted; `timing_patterns` is never written or read and is omitted).
`buy_sell_frac` is the `buy_sell_ratio` entry of the source dict.
Note: in the source, when `activities` is empty the `unique_markets` entry is
left as an empty Python `set` rather than an `int`; this model stores `0`
there and `analysis_unique_markets_is_set` (below) records the set-vs-int
type confusion where it matters. -/
structure WalletAnalysis where
  wallet_address : Nat
  total_activities : Nat
  total_positions : Nat
  is_new_wallet : Bool
  trading_frequency : ℚ
  average_trade_size : ℚ
  max_trade_size : ℚ
  first_activity : Option Int
  last_activity : Option Int
  unique_markets : Nat
  buy_sell_frac : ℚ
deriving DecidableEq

/-- Minimum of a non-empty list of integers (Python `min(timestamps)`;
the `[]` case is unreachable at call sites). -/
def list_min_int : List Int → Int
  | [] => 0
  | x :: xs => xs.foldl min x

/-- Maximum of a non-empty list of integers (Python `max(timestamps)`). -/
def list_max_int : List Int → Int
  | [] => 0
  | x :: xs => xs.foldl max x

/-- Maximum of a non-empty list of rationals (Python `max(trade_sizes)`). -/
def list_max_rat : List ℚ → ℚ
  | [] => 0
  | x :: xs => xs.foldl max x

/-- Pure core of `InsiderDetector._analyze_wallet_behavior` (lines 118-187):
given the activity records and the number of positions returned by the
subgraph for `wallet_address`, and the current time `now` (Unix seconds),
build the analysis dict, or `none` when both upstream results are empty
(`if not activities and not positions: return None`). -/
def analyze_wallet_behavior (wallet_address : Nat) (activities : List Activity)
    (positions : Nat) (now : Int) : Option WalletAnalysis :=
  if activities.isEmpty ∧ positions = 0 then
    none
  else if activities.isEmpty then
    -- the `if activities:` block is skipped: all metrics keep their defaults
    some { wallet_address := wallet_address
           total_activities := 0
           total_positions := positions
           is_new_wallet := false
           trading_frequency := 0
           average_trade_size := 0
           max_trade_size := 0
           first_activity := none
           last_activity := none
           unique_markets := 0
           buy_sell_frac := 0 }
  else
    let timestamps := activities.map (·.timestamp)
    let buy_sell := activities.filter fun a =>
      a.type = ActivityType.BUY ∨ a.type = ActivityType.SELL
    let trade_sizes := buy_sell.map fun a => a.amount * a.price.getD 1
    let buy_count := (activities.filter fun a => a.type = ActivityType.BUY).length
    let sell_count := (activities.filter fun a => a.type = ActivityType.SELL).length
    let first := list_min_int timestamps
    let last := list_max_int timestamps
    -- `first_activity >= int((datetime.now() - timedelta(hours=24)).timestamp())`
    let is_new := decide (first ≥ now - 86400)
    -- `time_span = (max(timestamps) - min(timestamps)) / 3600`
    let time_span : ℚ := ((last - first : Int) : ℚ) / 3600
    let frequency : ℚ :=
      if time_span > 0 then (activities.length : ℚ) / time_span else 0
    let average : ℚ :=
      if trade_sizes.isEmpty then 0 else trade_sizes.sum / (trade_sizes.length : ℚ)
    let max_size : ℚ := if trade_sizes.isEmpty then 0 else list_max_rat trade_sizes
    let total_trades := buy_count + sell_count
    let frac : ℚ :=
      if total_trades > 0 then (buy_count : ℚ) / (total_trades : ℚ) else 0
    some { wallet_address := wallet_address
           total_activities := activities.length
           total_positions := positions
           is_new_wallet := is_new
           trading_frequency := frequency
           average_trade_size := average
           max_trade_size := max_size
           first_activity := some first
           last_activity := some last
           unique_markets := ((activities.filterMap (·.market_id)).dedup).length
           buy_sell_frac := frac }

/-- The market-context entries computed and read by the detector
(`question`, `description`, `liquidity`, `volume` and the `cache_time`
bookkeeping entry are cosmetic for detection and omitted). -/
structure MarketContext where
  time_to_expiry : Option ℚ
  is_expiring_soon : Bool
deriving DecidableEq

/-- The empty dict `{}` returned by `_get_market_context` on a missing
token/market id or on an upstream exception: reading `is_expiring_soon` from
it yields a falsy value and `time_to_expiry` is never read then. -/
def empty_market_context : MarketContext :=
  { time_to_expiry := none, is_expiring_soon := false }

/-- The expiry computation of `InsiderDetector._get_market_context`
(lines 234-243): `time_to_expiry = (end_timestamp - now) / 3600` when an end
date is present, and the expiring-soon flag set iff
`0 < time_to_expiry_hours <= 168`. -/
def market_context_from_end_date (end_date : Option Int) (now : Int) :
    MarketContext :=
  match end_date with
  | none => { time_to_expiry := none, is_expiring_soon := false }
  | some end_timestamp =>
      let time_to_expiry_hours : ℚ := ((end_timestamp - now : Int) : ℚ) / 3600
      { time_to_expiry := some time_to_expiry_hours
        is_expiring_soon := decide (0 < time_to_expiry_hours ∧ time_to_expiry_hours ≤ 168) }

/-- Embedding of `InsiderDetector._detect_insider_patterns` (lines 252-318), a pure
function of the trade dict, the wallet-analysis dict and the market context.
`min_trade_size_usd` is the configured `settings.min_trade_size_usd`; the
constant `large_trade_multiplier` is 5.0 and the hard-coded frequency
threshold is 0.1.  Each rule independently appends its pattern dict. -/
def detect_insider_patterns (min_trade_size_usd : ℚ) (trade : TradeData)
    (w : WalletAnalysis) (m : MarketContext) : List Pattern :=
  let trade_size_usd := calculate_trade_size_usd trade.amount trade.price
  -- Pattern 1: new wallet with large initial trade
  (if w.is_new_wallet ∧ trade_size_usd ≥ min_trade_size_usd * 2 then
    [{ type := .NEW_WALLET_LARGE_TRADE, confidence := 60, severity := .HIGH }]
   else []) ++
  -- Pattern 2: unusually large trade for this wallet
  (if trade_size_usd > 0 ∧ w.average_trade_size > 0 ∧
      trade_size_usd / w.average_trade_size ≥ 5 then
    [{ type := .UNUSUALLY_LARGE_TRADE
       confidence := min (40 + (trade_size_usd / w.average_trade_size - 5) * 10) 80
       severity := if trade_size_usd / w.average_trade_size ≥ 10 then .HIGH else .MEDIUM }]
   else []) ++
  -- Pattern 3: trading on expiring markets
  (if m.is_expiring_soon ∧ trade_size_usd ≥ min_trade_size_usd then
    [{ type := .EXPIRING_MARKET_ACTIVITY, confidence := 50, severity := .MEDIUM }]
   else []) ++
  -- Pattern 4: low-frequency wallet suddenly active
  (if w.trading_frequency < 0.1 ∧ trade_size_usd ≥ min_trade_size_usd then
    [{ type := .SUDDEN_ACTIVITY, confidence := 45, severity := .MEDIUM }]
   else []) ++
  -- Pattern 5: concentrated trading
  (if w.unique_markets ≤ 2 ∧ trade_size_usd ≥ min_trade_size_usd * 1.5 then
    [{ type := .CONCENTRATED_TRADING, confidence := 35, severity := .LOW }]
   else []) ++
  -- Pattern 6: extreme buy/sell imbalance
  (if w.buy_sell_frac ≥ 0.9 ∨ w.buy_sell_frac ≤ 0.1 then
    [{ type := .IMBALANCED_TRADING, confidence := 30, severity := .LOW }]
   else [])

/-- Python's `round(x, 1)`: rounding to one decimal place.  Python rounds
the nearest binary double half-to-even; on exact rationals we use `round`
(half away from zero on `.05` ties).  Every concrete value appearing in the
theorems below is tie-free except where the tie direction is irrelevant. -/
def round_to_one_decimal (q : ℚ) : ℚ :=
  ((round (10 * q) : ℤ) : ℚ) / 10

/-- Embedding of `InsiderDetector._calculate_risk_score` (lines 329-373).  The sequential
`multiplier` re-bindings mirror the source's `multiplier += ...` updates. -/
def calculate_risk_score (min_trade_size_usd : ℚ) (patterns : List Pattern)
    (trade : TradeData) (w : WalletAnalysis) : ℚ × RiskLevel :=
  if patterns.isEmpty then (0, RiskLevel.LOW)
  else
    let total_confidence := (patterns.map (·.confidence)).sum
    let pattern_count := patterns.length
    let avg_confidence := total_confidence / (pattern_count : ℚ)
    let multiplier : ℚ := 1
    let trade_size_usd := calculate_trade_size_usd trade.amount trade.price
    let multiplier :=
      if trade_size_usd ≥ min_trade_size_usd * 5 then multiplier + 0.3
      else if trade_size_usd ≥ min_trade_size_usd * 2 then multiplier + 0.15
      else multiplier
    let multiplier := if w.is_new_wallet then multiplier + 0.4 else multiplier
    let multiplier :=
      if pattern_count ≥ 3 then multiplier + 0.3
      else if pattern_count ≥ 2 then multiplier + 0.15
      else multiplier
    let final_score := min (avg_confidence * multiplier) 100
    let risk_level :=
      if final_score ≥ 80 then RiskLevel.CRITICAL
      else if final_score ≥ 60 then RiskLevel.HIGH
      else if final_score ≥ 40 then RiskLevel.MEDIUM
      else RiskLevel.LOW
    (round_to_one_decimal final_score, risk_level)

/-- One insider alert (`InsiderAlert` dataclass): the fields derived by
`analyze_trade_for_insider_activity` (the `reasons` description strings,
context snapshots and wall-clock `timestamp` are omitted). -/
structure InsiderAlert where
  wallet_address : Nat
  confidence_score : ℚ
  risk_level : RiskLevel
  behavioral_patterns : List PatternType
deriving DecidableEq

/-- The fallible upstream calls of the Goldsky client, as seen by
`InsiderDetector`.  Each call either returns a value or raises
(`Except.error` with a `Nat` error code standing for the Python exception). -/
structure GoldskyEnv where
  get_user_activity : Nat → Except Nat (List Activity)
  get_user_positions : Nat → Except Nat Nat
  get_market_data : Nat → Except Nat Unit

/-- Embedding of `InsiderDetector._analyze_wallet_behavior` including its own
`try`/`except` (lines 104-191, cache omitted): an exception from either
upstream call is caught and yields `None`. -/
def analyze_wallet_behavior_from_env (env : GoldskyEnv) (wallet_address : Nat)
    (now : Int) : Option WalletAnalysis :=
  match env.get_user_activity wallet_address with
  | .error _ => none
  | .ok activities =>
    match env.get_user_positions wallet_address with
    | .error _ => none
    | .ok positions => analyze_wallet_behavior wallet_address activities positions now

/-- Embedding of `InsiderDetector._get_market_context` including its own `try`/`except`
(lines 193-250, cache omitted): a missing token or market id yields the
empty dict, and an exception from `get_market_data` is caught and yields the
empty dict; otherwise the expiry fields are computed from the trade's
embedded market data. -/
def get_market_context_from_env (env : GoldskyEnv) (trade : TradeData) (now : Int) :
    MarketContext :=
  match trade.token_id with
  | none => empty_market_context
  | some _ =>
    match trade.market_id with
    | none => empty_market_context
    | some market_id =>
      match env.get_market_data market_id with
      | .error _ => empty_market_context
      | .ok _ => market_context_from_end_date trade.end_date now

/-- The body of `analyze_trade_for_insider_activity` (lines 54-98), inside
the `try`.  In the source, a wallet analysed from zero activities carries an
empty Python `set` in its `unique_markets` entry, and rule 5 of
`_detect_insider_patterns` then evaluates `set() <= 2`, raising `TypeError`;
the `total_activities = 0` test reproduces exactly that raise. -/
def analyze_trade_body (env : GoldskyEnv) (min_trade_size_usd : ℚ) (now : Int)
    (trade : TradeData) : Except Nat (Option InsiderAlert) := do
  match trade.maker with
  | none => return none
  | some wallet_address =>
    match analyze_wallet_behavior_from_env env wallet_address now with
    | none => return none
    | some wallet_analysis =>
      let trade_size_usd := calculate_trade_size_usd trade.amount trade.price
      if trade_size_usd < min_trade_size_usd then return none
      else
        let market_context := get_market_context_from_env env trade now
        -- `set() <= 2` raises `TypeError` when the wallet had no activities
        if wallet_analysis.total_activities = 0 then
          Except.error 0
        else
          let patterns :=
            detect_insider_patterns min_trade_size_usd trade wallet_analysis market_context
          if patterns.isEmpty then return none
          else
            let scored := calculate_risk_score min_trade_size_usd patterns trade wallet_analysis
            if scored.1 ≥ 30 then
              return some { wallet_address := wallet_address
                            confidence_score := scored.1
                            risk_level := scored.2
                            behavioral_patterns := patterns.map (·.type) }
            else return none

/-- Embedding of `InsiderDetector.analyze_trade_for_insider_activity` (lines 51-102): the
outer `try`/`except` catches any exception raised by the body and returns
`None` for that trade. -/
def analyze_trade_for_insider_activity (env : GoldskyEnv)
    (min_trade_size_usd : ℚ) (now : Int) (trade : TradeData) :
    Option InsiderAlert :=
  match analyze_trade_body env min_trade_size_usd now trade with
  | .ok r => r
  | .error _ => none

/-- The per-trade processing loop of the monitors (`LargeTradeMonitor.start`
and `get_market_insider_activity`): each trade of the batch is analysed
under its own exception guard, so the loop always advances to the next
trade. -/
def process_trades (env : GoldskyEnv) (min_trade_size_usd : ℚ) (now : Int) :
    List TradeData → List (Option InsiderAlert)
  | [] => []
  | trade :: rest =>
      analyze_trade_for_insider_activity env min_trade_size_usd now trade ::
        process_trades env min_trade_size_usd now rest

/-! ## `TradeAnalysisService`'s processed-trades ledger

`_processed_trades` is a Python dict mapping a transaction hash to an
insertion `datetime`.  It is modelled as an insertion-ordered association
list of `(hash, timestamp)` pairs, matching dict semantics (updating an
existing key keeps its position; a new key is appended). -/

/-- Dict assignment `d[key] = value`. -/
def dict_set (key : Nat) (value : Int) :
    List (Nat × Int) → List (Nat × Int)
  | [] => [(key, value)]
  | (k, v) :: rest =>
      if k = key then (k, value) :: rest else (k, v) :: dict_set key value rest

/-- Embedding of `TradeAnalysisService.is_trade_processed`:
`transaction_hash in self._processed_trades`. -/
def is_trade_processed (transaction_hash : Nat)
    (processed : List (Nat × Int)) : Bool :=
  processed.any (·.1 = transaction_hash)

/-- Embedding of `TradeAnalysisService._cleanup_old_processed_trades`: delete every entry
whose timestamp is older than `now` minus 7 days (604800 seconds). -/
def cleanup_old_processed_trades (now : Int)
    (processed : List (Nat × Int)) : List (Nat × Int) :=
  processed.filter fun p => ¬ p.2 < now - 604800

/-- Embedding of `TradeAnalysisService._max_processed_trades` (10000). -/
def max_processed_trades : Nat := 10000

/-- Embedding of `TradeAnalysisService.mark_trade_processed` (lines 25-31): record the
hash with the current time, then run the age-based cleanup when the dict
has grown past `_max_processed_trades`. -/
def mark_trade_processed (now : Int) (transaction_hash : Nat)
    (processed : List (Nat × Int)) : List (Nat × Int) :=
  let processed := dict_set transaction_hash now processed
  if processed.length > max_processed_trades then
    cleanup_old_processed_trades now processed
  else processed

/-! ## `SuspiciousTradeDetector` -/

/-- The `side` string of a `Trade`; the source only ever tests
`trade.side == "BUY"`, so every other string behaves as `SELL`. -/
inductive Side where
  | BUY
  | SELL
deriving DecidableEq

/-- The `Trade` pydantic model (api/models.py), restricted to the fields the
detector reads.  `usd_size = none` models the `None` default; a stored
`0` value is falsy in the source's `if not trade.usd_size` guards. -/
structure STrade where
  maker : Nat
  taker : Nat
  price : ℚ
  size : ℚ
  side : Side
  timestamp : Int
  transaction_hash : Nat
  usd_size : Option ℚ
deriving DecidableEq

/-- The `WalletFunding` pydantic model, restricted to the fields read. -/
structure WalletFunding where
  address : Nat
  amount : ℚ
  timestamp : Int
deriving DecidableEq

/-- The `WalletTradeHistory` pydantic model, restricted to the fields read. -/
structure WalletTradeHistory where
  total_trades : Nat
  first_trade_date : Option Int
  last_trade_date : Option Int
deriving DecidableEq

/-- The `SuspiciousTradeAlert` dataclass of the detector (the `reason`
string is omitted; the `trade` back-pointer is dropped since the caller
already holds it). -/
structure SAlert where
  wallet_address : Nat
  funding_amount : Option ℚ
  funding_time : Option Int
  previous_trades : Nat
  confidence : ℚ
deriving DecidableEq

/-- The dedup key of `SuspiciousTradeDetector.analyze_trade`:
`f"{trade.transaction_hash}_{trade.maker}_{trade.taker}"`. -/
def trade_key (t : STrade) : Nat × Nat × Nat :=
  (t.transaction_hash, t.maker, t.taker)

/-- The primary wallet of a trade: `trade.maker if trade.side == "BUY" else
trade.taker`. -/
def primary_wallet (t : STrade) : Nat :=
  if t.side = Side.BUY then t.maker else t.taker

/-- Embedding of `SuspiciousTradeDetector._get_recent_funding`: the funding records for
this wallet within the lookback window, reduced with Python's
`max(..., key=...)` (which keeps the earliest-listed element on ties). -/
def get_recent_funding (funding_lookback_hours : ℚ) (now : Int)
    (funding_history : List WalletFunding) (wallet_address : Nat) :
    Option WalletFunding :=
  let cutoff : ℚ := (now : ℚ) - funding_lookback_hours * 3600
  let wallet_funding := funding_history.filter fun f =>
    f.address = wallet_address ∧ (f.timestamp : ℚ) ≥ cutoff
  match wallet_funding with
  | [] => none
  | x :: xs => some (xs.foldl (fun acc f => if acc.timestamp < f.timestamp then f else acc) x)

/-- Embedding of `SuspiciousTradeDetector._check_large_trade_patterns` (lines 72-113). -/
def check_large_trade_patterns (min_trade_size funding_lookback_hours : ℚ)
    (now : Int) (t : STrade) (funding_history : List WalletFunding)
    (trade_history : WalletTradeHistory) : Option SAlert :=
  match t.usd_size with
  | none => none
  | some usd =>
    -- `if not trade.usd_size or trade.usd_size < self.min_trade_size`
    if usd = 0 ∨ usd < min_trade_size then none
    else
      let wallet_address := primary_wallet t
      let confidence := min (0.3 + usd / min_trade_size * 0.2) 0.9
      let confidence :=
        if trade_history.total_trades = 0 then confidence + 0.3
        else if trade_history.total_trades < 5 then confidence + 0.2
        else confidence
      let recent_funding :=
        get_recent_funding funding_lookback_hours now funding_history wallet_address
      let confidence := if recent_funding.isSome then confidence + 0.2 else confidence
      let confidence := min confidence 1
      some { wallet_address := wallet_address
             funding_amount := recent_funding.map (·.amount)
             funding_time := recent_funding.map (·.timestamp)
             previous_trades := trade_history.total_trades
             confidence := confidence }

/-- Embedding of `SuspiciousTradeDetector._check_new_wallet_patterns` (lines 115-161). -/
def check_new_wallet_patterns (min_trade_size funding_lookback_hours : ℚ)
    (now : Int) (t : STrade) (funding_history : List WalletFunding)
    (trade_history : WalletTradeHistory) : Option SAlert :=
  let wallet_address := primary_wallet t
  if trade_history.total_trades > 0 then none
  else
    match get_recent_funding funding_lookback_hours now funding_history wallet_address with
    | none => none
    | some recent_funding =>
      let hours_since_funding : ℚ := ((now - recent_funding.timestamp : Int) : ℚ) / 3600
      let confidence : ℚ := 0
      let confidence :=
        if hours_since_funding ≤ 1 then confidence + 0.4
        else if hours_since_funding ≤ 6 then confidence + 0.3
        else if hours_since_funding ≤ 24 then confidence + 0.2
        else confidence
      let confidence :=
        if recent_funding.amount ≥ min_trade_size then confidence + 0.3
        else if recent_funding.amount ≥ min_trade_size * 0.5 then confidence + 0.2
        else confidence
      if confidence < 0.5 then none
      else
        some { wallet_address := wallet_address
               funding_amount := some recent_funding.amount
               funding_time := some recent_funding.timestamp
               previous_trades := 0
               confidence := min confidence 1 }

/-- Embedding of `SuspiciousTradeDetector._check_funding_patterns` (lines 163-201). -/
def check_funding_patterns (min_trade_size funding_lookback_hours : ℚ)
    (now : Int) (t : STrade) (funding_history : List WalletFunding)
    (trade_history : WalletTradeHistory) : Option SAlert :=
  let wallet_address := primary_wallet t
  match get_recent_funding funding_lookback_hours now funding_history wallet_address with
  | none => none
  | some recent_funding =>
    match t.usd_size with
    | none => none
    | some usd =>
      if usd = 0 then none  -- `if not trade.usd_size: return None`
      else
        let funding_to_trade := recent_funding.amount / usd
        if 0.9 ≤ funding_to_trade ∧ funding_to_trade ≤ 1.1 then
          let confidence : ℚ := 0.7
          let confidence :=
            if trade_history.total_trades ≤ 1 then confidence + 0.2 else confidence
          some { wallet_address := wallet_address
                 funding_amount := some recent_funding.amount
                 funding_time := some recent_funding.timestamp
                 previous_trades := trade_history.total_trades
                 confidence := min confidence 1 }
        else none

/-- The three sequential checks of `SuspiciousTradeDetector.analyze_trade`
(lines 53-70), after the dedup gate: the first check that returns an alert
wins (each early `return alert` is the left arm of an `Option` fallback). -/
def analyze_trade_checks (min_trade_size funding_lookback_hours : ℚ)
    (now : Int) (t : STrade) (funding_history : List WalletFunding)
    (trade_history : WalletTradeHistory) : Option SAlert :=
  let alert1 :=
    match t.usd_size with
    | none => none
    | some usd =>
      -- `if trade.usd_size and trade.usd_size >= self.min_trade_size`
      if usd ≠ 0 ∧ usd ≥ min_trade_size then
        check_large_trade_patterns min_trade_size funding_lookback_hours now
          t funding_history trade_history
      else none
  match alert1 with
  | some a => some a
  | none =>
    match check_new_wallet_patterns min_trade_size funding_lookback_hours now
        t funding_history trade_history with
    | some a => some a
    | none =>
      check_funding_patterns min_trade_size funding_lookback_hours now
        t funding_history trade_history

/-- Embedding of `SuspiciousTradeDetector.analyze_trade` (lines 41-70): the dedup check
against `self.processed_trades` (a Python set, modelled as a duplicate-free
list of keys), the immediate `add`, then the three checks in order.  Returns
the produced alert (if any) and the updated set. -/
def analyze_trade (min_trade_size funding_lookback_hours : ℚ) (now : Int)
    (processed_trades : List (Nat × Nat × Nat)) (t : STrade)
    (funding_history : List WalletFunding)
    (trade_history : WalletTradeHistory) :
    Option SAlert × List (Nat × Nat × Nat) :=
  let key := trade_key t
  if key ∈ processed_trades then (none, processed_trades)
  else
    (analyze_trade_checks min_trade_size funding_lookback_hours now
      t funding_history trade_history, key :: processed_trades)

/-- Embedding of `SuspiciousTradeDetector.clear_processed_trades` (lines 222-231): a
maintenance call that empties the processed-trades set when it has grown
past 10000 entries (the `older_than_hours` argument is computed into a
cutoff that the simplified source never uses). -/
def clear_processed_trades (processed_trades : List (Nat × Nat × Nat)) :
    List (Nat × Nat × Nat) :=
  if processed_trades.length > 10000 then [] else processed_trades

/-- One submission to `SuspiciousTradeDetector.analyze_trade`: the trade and
the two upstream enrichments the caller fetched for it. -/
structure Submission where
  trade : STrade
  funding_history : List WalletFunding
  trade_history : WalletTradeHistory

/-- Sequential submission of a batch of trades to
`SuspiciousTradeDetector.analyze_trade`, threading the processed-trades
set; returns the per-trade outcomes and the final set. -/
def run_detector (min_trade_size funding_lookback_hours : ℚ) (now : Int) :
    List (Nat × Nat × Nat) → List Submission →
    List (Option SAlert) × List (Nat × Nat × Nat)
  | st, [] => ([], st)
  | st, s :: rest =>
      let step := analyze_trade min_trade_size funding_lookback_hours now st
        s.trade s.funding_history s.trade_history
      let tail := run_detector min_trade_size funding_lookback_hours now step.2 rest
      (step.1 :: tail.1, tail.2)

/-- The number of emitted (`some`) outcomes among the submissions of a batch
whose trade carries the dedup key `k`. -/
def emitted_for_key (k : Nat × Nat × Nat) (subs : List Submission)
    (outs : List (Option SAlert)) : Nat :=
  (subs.zip outs).countP fun p => decide (trade_key p.1.trade = k) && p.2.isSome

/-! ## Concrete sample data used by witnesses and counterexamples -/

/-- A BUY activity of notional 2 on market 5 at time 0. -/
def sample_activity : Activity :=
  { timestamp := 0, type := .BUY, amount := 2, price := some 1, market_id := some 5 }

/-- An upstream environment whose wallet calls succeed (one BUY activity,
one position) and whose market-data call always raises. -/
def sample_env : GoldskyEnv :=
  { get_user_activity := fun _ => .ok [sample_activity]
    get_user_positions := fun _ => .ok 1
    get_market_data := fun _ => .error 7 }

/-- A $20,000 trade by wallet 1 on token 1 / market 2. -/
def sample_trade : TradeData :=
  { maker := some 1, amount := 20, price := 1, token_id := some 1,
    market_id := some 2, end_date := none }

/-- The wallet analysis `sample_env` produces for wallet 1 at time 1000000. -/
def sample_wallet : WalletAnalysis :=
  { wallet_address := 1, total_activities := 1, total_positions := 1,
    is_new_wallet := false, trading_frequency := 0, average_trade_size := 2,
    max_trade_size := 2, first_activity := some 0, last_activity := some 0,
    unique_markets := 1, buy_sell_frac := 1 }

/-- An activity that is neither a BUY nor a SELL (e.g. a redeem/split). -/
def other_activity : Activity :=
  { timestamp := 0, type := .OTHER, amount := 3, price := some 1, market_id := some 4 }

/-- A $1,000 trade by wallet 1, with no market attached. -/
def small_trade : TradeData :=
  { maker := some 1, amount := 1, price := 1, token_id := none,
    market_id := none, end_date := none }

/-- The wallet analysis produced for wallet 2 from the single non-BUY/SELL
activity `other_activity` at time 0. -/
def imbalanced_wallet : WalletAnalysis :=
  { wallet_address := 2, total_activities := 1, total_positions := 0,
    is_new_wallet := true, trading_frequency := 0, average_trade_size := 0,
    max_trade_size := 0, first_activity := some 0, last_activity := some 0,
    unique_markets := 1, buy_sell_frac := 0 }

/-- The wallet analysis produced for wallet 3 from zero activities and one
position. -/
def zero_activity_wallet : WalletAnalysis :=
  { wallet_address := 3, total_activities := 0, total_positions := 1,
    is_new_wallet := false, trading_frequency := 0, average_trade_size := 0,
    max_trade_size := 0, first_activity := none, last_activity := none,
    unique_markets := 0, buy_sell_frac := 0 }

/-- End-to-end scenario C of the spec: a wallet whose average trade size is
$1,000. -/
def scenario_wallet : WalletAnalysis :=
  { wallet_address := 9, total_activities := 5, total_positions := 0,
    is_new_wallet := false, trading_frequency := 1, average_trade_size := 1000,
    max_trade_size := 2000, first_activity := some 0, last_activity := some 0,
    unique_markets := 5, buy_sell_frac := 0.5 }

/-- End-to-end scenario C of the spec: a $12,000 trade. -/
def scenario_trade : TradeData :=
  { maker := some 9, amount := 12, price := 1, token_id := none,
    market_id := none, end_date := none }

/-- The `TradeAnalysisService` ledger obtained by inserting the distinct
hashes `0, 1, ..., n-1`, all at time 604800 (so none is a week old). -/
def ledger_after (n : Nat) : List (Nat × Int) :=
  (List.range n).foldl (fun m k => mark_trade_processed 604800 k m) []

/-- An upstream environment whose wallet-activity call always raises. -/
def failing_env : GoldskyEnv :=
  { get_user_activity := fun _ => .error 3
    get_user_positions := fun _ => .ok 0
    get_market_data := fun _ => .ok () }

/-- An upstream environment reporting zero activities and one position for
every wallet. -/
def empty_activity_env : GoldskyEnv :=
  { get_user_activity := fun _ => .ok []
    get_user_positions := fun _ => .ok 1
    get_market_data := fun _ => .ok () }

/-! ## Helper lemmas -/

/-- The rounded score and the risk tier depend on the multiplier only through
its value. -/
theorem score_pair_congr (A M₁ M₂ : ℚ) (h : M₁ = M₂) :
    (round_to_one_decimal (min (A * M₁) 100),
      if min (A * M₁) 100 ≥ 80 then RiskLevel.CRITICAL
      else if min (A * M₁) 100 ≥ 60 then RiskLevel.HIGH
      else if min (A * M₁) 100 ≥ 40 then RiskLevel.MEDIUM
      else RiskLevel.LOW) =
    (round_to_one_decimal (min (A * M₂) 100),
      if min (A * M₂) 100 ≥ 80 then RiskLevel.CRITICAL
      else if min (A * M₂) 100 ≥ 60 then RiskLevel.HIGH
      else if min (A * M₂) 100 ≥ 40 then RiskLevel.MEDIUM
      else RiskLevel.LOW) := by
  rw [h]

/-- Membership in a conditional singleton list. -/
theorem mem_ite_singleton {α : Type} {c : Prop} [Decidable c] {x y : α}
    (hx : x ∈ (if c then [y] else [])) : c ∧ x = y := by
  by_cases h : c
  · rw [if_pos h] at hx
    exact ⟨h, by simpa using hx⟩
  · rw [if_neg h] at hx
    simp at hx

/-- A lower bound on every element of a list bounds its sum from below. -/
theorem mul_length_le_sum (c : ℚ) (l : List ℚ) (h : ∀ x ∈ l, c ≤ x) :
    c * l.length ≤ l.sum := by
  induction l with
  | nil => simp
  | cons x xs ih =>
    have hx := h x (List.mem_cons_self x xs)
    have hxs := ih fun y hy => h y (List.mem_cons_of_mem x hy)
    simp only [List.sum_cons, List.length_cons]
    push_cast
    nlinarith [hxs, hx]

/-- Rounding to one decimal is monotone. -/
theorem round_to_one_decimal_mono {a b : ℚ} (h : a ≤ b) :
    round_to_one_decimal a ≤ round_to_one_decimal b := by
  unfold round_to_one_decimal
  have h10 : round (10 * a) ≤ round (10 * b) := by
    rw [round_eq, round_eq]
    exact Int.floor_le_floor (by linarith)
  have hc : ((round (10 * a) : ℤ) : ℚ) ≤ ((round (10 * b) : ℤ) : ℚ) := by
    exact_mod_cast h10
  linarith

/-- Rounding to one decimal preserves the bound 30. -/
theorem round_to_one_decimal_ge_30 {q : ℚ} (h : 30 ≤ q) :
    30 ≤ round_to_one_decimal q := by
  have h30 : round_to_one_decimal 30 = 30 := by
    norm_num [round_to_one_decimal, round_eq]
  calc (30 : ℚ) = round_to_one_decimal 30 := h30.symm
    _ ≤ round_to_one_decimal q := round_to_one_decimal_mono h

/-! ## C1: the risk-score formula -/

/-- C1: for every non-empty list of pattern matches, `_calculate_risk_score`
returns the average of the patterns' base confidences multiplied by
`1 + adjustments` (adjustments: +0.30 if tradeUSD ≥ 5× the min-trade
threshold, else +0.15 if ≥ 2×; +0.40 if the wallet is new; +0.30 if ≥ 3
patterns, else +0.15 if ≥ 2), capped at 100 and rounded to one decimal, with
tier CRITICAL at ≥ 80, HIGH at ≥ 60, MEDIUM at ≥ 40 and LOW below; the empty
pattern list gives score 0, tier LOW. -/
theorem C1_calculate_risk_score_matches_spec (min_trade_size_usd : ℚ)
    (patterns : List Pattern) (t : TradeData) (w : WalletAnalysis) :
    calculate_risk_score min_trade_size_usd patterns t w =
      if patterns = [] then (0, RiskLevel.LOW)
      else
        let avg := (patterns.map Pattern.confidence).sum / (patterns.length : ℚ)
        let adjustments : ℚ :=
          (if t.size_usd ≥ min_trade_size_usd * 5 then 0.3
           else if t.size_usd ≥ min_trade_size_usd * 2 then 0.15 else 0) +
          (if w.is_new_wallet then 0.4 else 0) +
          (if patterns.length ≥ 3 then 0.3
           else if patterns.length ≥ 2 then 0.15 else 0)
        let score := min (avg * (1 + adjustments)) 100
        (round_to_one_decimal score,
         if score ≥ 80 then RiskLevel.CRITICAL
         else if score ≥ 60 then RiskLevel.HIGH
         else if score ≥ 40 then RiskLevel.MEDIUM
         else RiskLevel.LOW) := by
  cases patterns with
  | nil => rfl
  | cons p ps =>
    simp only [calculate_risk_score, TradeData.size_usd, List.isEmpty_cons, Bool.false_eq_true,
      if_false, List.cons_ne_nil, ite_false]
    by_cases h1 : calculate_trade_size_usd t.amount t.price ≥ min_trade_size_usd * 5 <;>
    by_cases h2 : calculate_trade_size_usd t.amount t.price ≥ min_trade_size_usd * 2 <;>
    by_cases hb : w.is_new_wallet = true <;>
    by_cases h3 : (p :: ps).length ≥ 3 <;>
    by_cases h4 : (p :: ps).length ≥ 2 <;>
    simp only [h1, h2, hb, h3, h4, if_true, if_false, ite_true, ite_false] <;>
    exact score_pair_congr _ _ _ (by norm_num)

/-! ## C2: the six-rule table -/

/-- C2: `_detect_insider_patterns` returns exactly the matches of the
six-rule table, each rule evaluated independently (the source's extra
`tradeUSD > 0` conjunct in UNUSUALLY_LARGE_TRADE is implied by the other two
conjuncts); in particular, avgTradeSize 1000 and tradeUSD 12000 give
multiplier 12, confidence 80, severity HIGH. -/
theorem C2_detect_insider_patterns_rule_table (min_trade_size_usd : ℚ)
    (t : TradeData) (w : WalletAnalysis) (m : MarketContext) :
    (detect_insider_patterns min_trade_size_usd t w m =
      (if w.is_new_wallet ∧ t.size_usd ≥ min_trade_size_usd * 2 then
        [{ type := .NEW_WALLET_LARGE_TRADE, confidence := 60, severity := .HIGH }]
       else []) ++
      (if w.average_trade_size > 0 ∧ t.size_usd / w.average_trade_size ≥ 5 then
        [{ type := .UNUSUALLY_LARGE_TRADE
           confidence := min (40 + (t.size_usd / w.average_trade_size - 5) * 10) 80
           severity := if t.size_usd / w.average_trade_size ≥ 10 then .HIGH else .MEDIUM }]
       else []) ++
      (if m.is_expiring_soon ∧ t.size_usd ≥ min_trade_size_usd then
        [{ type := .EXPIRING_MARKET_ACTIVITY, confidence := 50, severity := .MEDIUM }]
       else []) ++
      (if w.trading_frequency < 0.1 ∧ t.size_usd ≥ min_trade_size_usd then
        [{ type := .SUDDEN_ACTIVITY, confidence := 45, severity := .MEDIUM }]
       else []) ++
      (if w.unique_markets ≤ 2 ∧ t.size_usd ≥ min_trade_size_usd * 1.5 then
        [{ type := .CONCENTRATED_TRADING, confidence := 35, severity := .LOW }]
       else []) ++
      (if w.buy_sell_frac ≥ 0.9 ∨ w.buy_sell_frac ≤ 0.1 then
        [{ type := .IMBALANCED_TRADING, confidence := 30, severity := .LOW }]
       else [])) ∧
    Pattern.mk .UNUSUALLY_LARGE_TRADE 80 .HIGH ∈
      detect_insider_patterns 10000 scenario_trade scenario_wallet empty_market_context := by
  constructor
  · have husd : (calculate_trade_size_usd t.amount t.price > 0 ∧ w.average_trade_size > 0 ∧
        calculate_trade_size_usd t.amount t.price / w.average_trade_size ≥ 5) ↔
        (w.average_trade_size > 0 ∧
          calculate_trade_size_usd t.amount t.price / w.average_trade_size ≥ 5) := by
      constructor
      · rintro ⟨_, h⟩
        exact h
      · rintro ⟨ha, hr⟩
        refine ⟨?_, ha, hr⟩
        rw [ge_iff_le, le_div_iff₀ ha] at hr
        linarith
    simp only [detect_insider_patterns, TradeData.size_usd, husd]
  · norm_num +decide [detect_insider_patterns, scenario_trade, scenario_wallet,
      empty_market_context, calculate_trade_size_usd]

/-! ## C8: market expiry computation -/

/-- C8: time-to-expiry is `(end_timestamp - now) / 3600` hours, absent when
the market has no end date, and the expiring-soon flag holds iff
`0 < time_to_expiry ≤ 168`. -/
theorem C8_time_to_expiry_and_expiring_flag (end_date : Option Int) (now : Int) :
    (market_context_from_end_date end_date now).time_to_expiry =
      end_date.map (fun e => ((e - now : Int) : ℚ) / 3600) ∧
    ((market_context_from_end_date end_date now).is_expiring_soon = true ↔
      ∃ tte, (market_context_from_end_date end_date now).time_to_expiry = some tte ∧
        0 < tte ∧ tte ≤ 168) := by
  cases end_date with
  | none => simp [market_context_from_end_date]
  | some e => simp [market_context_from_end_date]

/-! ## C5: profile availability and the zero-activity profile -/

/-- C5 counterexample: the profiling operation does not fail for every
address whose activity list is empty — with zero activities but one open
position a profile is still returned. -/
theorem C5_counterexample_profile_with_zero_activities :
    (analyze_wallet_behavior 3 [] 1 0).isSome = true := by
  norm_num [analyze_wallet_behavior]

/-- C5 (amended): wallet profiling fails exactly when the upstream returns
zero activity records and zero positions; a profile computed from zero
activities has `is_new_wallet = false` and `trading_frequency = 0`. -/
theorem C5_amended_profile_availability (wallet_address : Nat)
    (activities : List Activity) (positions : Nat) (now : Int) :
    (analyze_wallet_behavior wallet_address activities positions now = none ↔
      activities = [] ∧ positions = 0) ∧
    (∀ w, activities = [] →
      analyze_wallet_behavior wallet_address activities positions now = some w →
      w.is_new_wallet = false ∧ w.trading_frequency = 0) := by
  constructor
  · unfold analyze_wallet_behavior
    by_cases h : activities.isEmpty ∧ positions = 0
    · rw [if_pos h]
      simp only [true_iff]
      exact ⟨List.isEmpty_iff.mp h.1, h.2⟩
    · rw [if_neg h]
      split_ifs <;>
        simp only [List.isEmpty_iff] at h <;>
        simp [h]
  · intro w hact hw
    subst hact
    unfold analyze_wallet_behavior at hw
    by_cases hp : positions = 0
    · simp [hp] at hw
    · simp [hp] at hw
      rw [← hw]
      exact ⟨rfl, rfl⟩

/-- C5 witness: the concrete zero-activity, one-position profile has
`is_new_wallet = false` and `trading_frequency = 0`. -/
theorem C5_amended_witness :
    zero_activity_wallet.is_new_wallet = false ∧
    zero_activity_wallet.trading_frequency = 0 :=
  (C5_amended_profile_availability 3 [] 1 0).2 zero_activity_wallet rfl
    (by norm_num [analyze_wallet_behavior, zero_activity_wallet])

/-! ## C6: denominator guards -/

/-- C6 counterexample: for a wallet with zero BUY/SELL-typed activities the
buy/sell ratio entry defaults to 0, which satisfies the `≤ 0.1` arm of the
imbalance test, so IMBALANCED_TRADING IS among the returned matches — the
rule is not skipped. -/
theorem C6_counterexample_imbalanced_fires :
    (∀ a ∈ [other_activity], a.type ≠ ActivityType.BUY ∧ a.type ≠ ActivityType.SELL) ∧
    analyze_wallet_behavior 2 [other_activity] 0 0 = some imbalanced_wallet ∧
    PatternType.IMBALANCED_TRADING ∈
      (detect_insider_patterns 10000 small_trade imbalanced_wallet empty_market_context).map
        Pattern.type := by
  refine ⟨by decide, ?_, ?_⟩
  · norm_num +decide [analyze_wallet_behavior, other_activity, imbalanced_wallet, list_min_int,
      list_max_int, list_max_rat, List.filterMap, List.dedup, List.filter]
  · norm_num +decide [detect_insider_patterns, small_trade, imbalanced_wallet,
      empty_market_context, calculate_trade_size_usd]

/-- C6 (amended): the UNUSUALLY_LARGE_TRADE rule is skipped when the
wallet's average trade size is 0; a wallet profiled from at least one
activity, none of them BUY/SELL-typed, gets `buy_sell_frac = 0`, which
satisfies the `≤ 0.1` arm of the imbalance test, so IMBALANCED_TRADING
fires rather than being skipped.  A wallet with zero activities never
reaches the imbalance rule at all: its `unique_markets` entry is a leftover
empty Python set, rule 5 raises `TypeError` on `set() <= 2`, and the
per-trade handler catches it and drops the trade with no matches. -/
theorem C6_amended_denominator_guards (mt : ℚ) (t : TradeData)
    (w : WalletAnalysis) (m : MarketContext) :
    (w.average_trade_size = 0 →
      PatternType.UNUSUALLY_LARGE_TRADE ∉
        (detect_insider_patterns mt t w m).map Pattern.type) ∧
    (∀ wallet_address (activities : List Activity) positions (now : Int),
      activities ≠ [] →
      (∀ a ∈ activities, a.type ≠ ActivityType.BUY ∧ a.type ≠ ActivityType.SELL) →
      analyze_wallet_behavior wallet_address activities positions now = some w →
      w.buy_sell_frac = 0 ∧
      PatternType.IMBALANCED_TRADING ∈ (detect_insider_patterns mt t w m).map Pattern.type) ∧
    (∀ (env : GoldskyEnv) (now : Int) (a : Nat) (wa : WalletAnalysis),
      t.maker = some a →
      analyze_wallet_behavior_from_env env a now = some wa →
      wa.total_activities = 0 →
      analyze_trade_for_insider_activity env mt now t = none) := by
  refine ⟨?_, ?_, ?_⟩
  · intro havg hmem
    obtain ⟨p, hp, htype⟩ := List.mem_map.mp hmem
    simp only [detect_insider_patterns] at hp
    rcases List.mem_append.mp hp with hp | h6
    rotate_left
    · obtain ⟨_, rfl⟩ := mem_ite_singleton h6
      exact absurd htype (by decide)
    rcases List.mem_append.mp hp with hp | h5
    rotate_left
    · obtain ⟨_, rfl⟩ := mem_ite_singleton h5
      exact absurd htype (by decide)
    rcases List.mem_append.mp hp with hp | h4
    rotate_left
    · obtain ⟨_, rfl⟩ := mem_ite_singleton h4
      exact absurd htype (by decide)
    rcases List.mem_append.mp hp with hp | h3
    rotate_left
    · obtain ⟨_, rfl⟩ := mem_ite_singleton h3
      exact absurd htype (by decide)
    rcases List.mem_append.mp hp with h1 | h2
    · obtain ⟨_, rfl⟩ := mem_ite_singleton h1
      exact absurd htype (by decide)
    · obtain ⟨⟨_, ha, _⟩, rfl⟩ := mem_ite_singleton h2
      rw [havg] at ha
      exact absurd ha (by norm_num)
  · intro wallet_address activities positions now hne hno hw
    have hfrac : w.buy_sell_frac = 0 := by
      cases activities with
      | nil => exact absurd rfl hne
      | cons a as =>
        have hbuy : (a :: as).filter (fun x => decide (x.type = ActivityType.BUY)) = [] := by
          rw [List.filter_eq_nil_iff]
          intro x hx
          simpa using (hno x hx).1
        have hsell : (a :: as).filter (fun x => decide (x.type = ActivityType.SELL)) = [] := by
          rw [List.filter_eq_nil_iff]
          intro x hx
          simpa using (hno x hx).2
        unfold analyze_wallet_behavior at hw
        simp only [List.isEmpty_cons, Bool.false_eq_true, false_and, if_false, ite_false,
          hbuy, hsell, List.length_nil, Option.some.injEq] at hw
        rw [← hw]
        norm_num
    refine ⟨hfrac, ?_⟩
    have hcond : w.buy_sell_frac ≥ 0.9 ∨ w.buy_sell_frac ≤ 0.1 := by
      right
      rw [hfrac]
      norm_num
    apply List.mem_map.mpr
    refine ⟨⟨.IMBALANCED_TRADING, 30, .LOW⟩, ?_, rfl⟩
    simp only [detect_insider_patterns]
    refine List.mem_append_right _ ?_
    rw [if_pos hcond]
    exact List.mem_singleton_self _
  · intro env now a wa hmaker hwa hact
    simp [analyze_trade_for_insider_activity, analyze_trade_body, hmaker, hwa, hact]
    split_ifs <;> rfl

/-- C6 witness: the amended statement at the concrete zero-BUY/SELL wallet. -/
theorem C6_amended_witness :
    (PatternType.UNUSUALLY_LARGE_TRADE ∉
      (detect_insider_patterns 10000 small_trade imbalanced_wallet
        empty_market_context).map Pattern.type) ∧
    (imbalanced_wallet.buy_sell_frac = 0 ∧
      PatternType.IMBALANCED_TRADING ∈
        (detect_insider_patterns 10000 small_trade imbalanced_wallet
          empty_market_context).map Pattern.type) ∧
    analyze_trade_for_insider_activity empty_activity_env 10000 0 sample_trade = none :=
  ⟨(C6_amended_denominator_guards 10000 small_trade imbalanced_wallet
      empty_market_context).1 rfl,
   (C6_amended_denominator_guards 10000 small_trade imbalanced_wallet
      empty_market_context).2.1 2 [other_activity] 0 0 (by decide) (by decide)
     (by norm_num +decide [analyze_wallet_behavior, other_activity, imbalanced_wallet,
        list_min_int, list_max_int, list_max_rat, List.filterMap, List.dedup, List.filter]),
   (C6_amended_denominator_guards 10000 sample_trade imbalanced_wallet
      empty_market_context).2.2 empty_activity_env 0 1
     { wallet_address := 1, total_activities := 0, total_positions := 1,
       is_new_wallet := false, trading_frequency := 0, average_trade_size := 0,
       max_trade_size := 0, first_activity := none, last_activity := none,
       unique_markets := 0, buy_sell_frac := 0 }
     rfl rfl rfl⟩

/-! ## C3: score monotonicity under appending a pattern -/

/-- Appending a pattern with confidence at least the running average never
lowers the score package (abstract arithmetic core). -/
theorem score_mono_abstract (S c n M₁ M₂ : ℚ)
    (hn : 0 < n) (hS : 0 ≤ S) (hc : S / n ≤ c) (hM : M₁ ≤ M₂) (hM₁ : 0 ≤ M₁) :
    round_to_one_decimal (min (S / n * M₁) 100) ≤
      round_to_one_decimal (min ((S + c) / (n + 1) * M₂) 100) := by
  apply round_to_one_decimal_mono
  apply min_le_min _ (le_refl 100)
  have hA : S / n ≤ (S + c) / (n + 1) := by
    rw [div_le_div_iff₀ hn (by linarith)]
    have hSc : S ≤ c * n := (div_le_iff₀ hn).mp hc
    nlinarith [hSc]
  have hA1 : 0 ≤ S / n := div_nonneg hS hn.le
  exact mul_le_mul hA hM hM₁ (le_trans hA1 hA)

/-- The pattern-count adjustment of the multiplier is monotone in the
pattern count. -/
theorem multiplier_count_mono (B : ℚ) (n₁ n₂ : Nat) (h : n₁ ≤ n₂) :
    (if n₁ ≥ 3 then B + 0.3 else if n₁ ≥ 2 then B + 0.15 else B) ≤
    (if n₂ ≥ 3 then B + 0.3 else if n₂ ≥ 2 then B + 0.15 else B) := by
  split_ifs <;> linarith

/-- The pattern-count adjustment preserves nonnegativity. -/
theorem multiplier_count_nonneg (B : ℚ) (hB : 0 ≤ B) (n : Nat) :
    0 ≤ (if n ≥ 3 then B + 0.3 else if n ≥ 2 then B + 0.15 else B) := by
  split_ifs <;> linarith

/-- The trade-size and new-wallet adjustments of the multiplier are
nonnegative. -/
theorem base_multiplier_nonneg (c1 c2 : Prop) [Decidable c1] [Decidable c2] (b : Bool) :
    (0 : ℚ) ≤ (if b = true then (if c1 then 1 + 0.3 else if c2 then 1 + 0.15 else 1) + 0.4
      else (if c1 then 1 + 0.3 else if c2 then 1 + 0.15 else 1)) := by
  split_ifs <;> norm_num

/-- C3 counterexample: appending one more pattern with positive base
confidence CAN decrease the score: appending a confidence-30 pattern to a
single confidence-80 pattern drops the score from 80 to 63.3 (the average
falls faster than the multi-pattern boost compensates). -/
theorem C3_counterexample_score_decreases :
    (0 : ℚ) < 30 ∧
    (calculate_risk_score 10000
        ([⟨.UNUSUALLY_LARGE_TRADE, 80, .HIGH⟩] ++ [⟨.IMBALANCED_TRADING, 30, .LOW⟩])
        small_trade scenario_wallet).1 <
      (calculate_risk_score 10000 [⟨.UNUSUALLY_LARGE_TRADE, 80, .HIGH⟩]
        small_trade scenario_wallet).1 := by
  constructor
  · norm_num
  · norm_num [calculate_risk_score, small_trade, scenario_wallet, calculate_trade_size_usd,
      round_to_one_decimal, round_eq]

/-- C3 (amended): appending one more pattern match whose base confidence is
at least the current average (all confidences nonnegative) never decreases
the score for the same trade and wallet. -/
theorem C3_amended_monotone_above_average (mt : ℚ) (t : TradeData)
    (w : WalletAnalysis) (ps : List Pattern) (p : Pattern) (hne : ps ≠ [])
    (hnn : ∀ q ∈ ps, 0 ≤ q.confidence)
    (havg : (ps.map Pattern.confidence).sum / (ps.length : ℚ) ≤ p.confidence) :
    (calculate_risk_score mt ps t w).1 ≤ (calculate_risk_score mt (ps ++ [p]) t w).1 := by
  rcases ps with _ | ⟨q, l⟩
  · exact absurd rfl hne
  have hSnn : 0 ≤ ((q :: l).map Pattern.confidence).sum := by
    have h0 := mul_length_le_sum 0 ((q :: l).map Pattern.confidence) ?_
    · simpa using h0
    · intro x hx
      obtain ⟨a, ha, rfl⟩ := List.mem_map.mp hx
      exact hnn a ha
  simp only [List.map_cons, List.sum_cons, List.length_cons] at havg hSnn
  push_cast at havg
  simp only [calculate_risk_score, List.isEmpty_cons, Bool.false_eq_true, if_false, ite_false,
    List.cons_append, List.map_cons, List.map_append, List.sum_cons, List.sum_append,
    List.map_nil, List.sum_nil, List.length_cons, List.length_append, List.length_nil,
    add_zero, zero_add]
  have hre : q.confidence + ((List.map (fun x => x.confidence) l).sum + p.confidence) =
      q.confidence + (List.map (fun x => x.confidence) l).sum + p.confidence := by ring
  rw [hre]
  push_cast
  refine score_mono_abstract _ _ _ _ _ ?_ ?_ ?_ ?_ ?_
  · have h0 : (0 : ℚ) ≤ (l.length : ℚ) := Nat.cast_nonneg _
    linarith
  · exact hSnn
  · exact havg
  · exact multiplier_count_mono _ _ _ (by omega)
  · exact multiplier_count_nonneg _ (base_multiplier_nonneg _ _ _) _

/-- C3 witness: the amended monotonicity at a concrete input (appending a
pattern whose confidence equals the current average). -/
theorem C3_amended_witness :
    ([⟨.UNUSUALLY_LARGE_TRADE, 80, .HIGH⟩] : List Pattern) ≠ [] ∧
    (calculate_risk_score 10000 [⟨.UNUSUALLY_LARGE_TRADE, 80, .HIGH⟩]
        small_trade scenario_wallet).1 ≤
      (calculate_risk_score 10000
        ([⟨.UNUSUALLY_LARGE_TRADE, 80, .HIGH⟩] ++ [⟨.UNUSUALLY_LARGE_TRADE, 80, .HIGH⟩])
        small_trade scenario_wallet).1 :=
  ⟨by decide, C3_amended_monotone_above_average 10000 small_trade scenario_wallet _ _
    (by decide)
    (by intro q hq; fin_cases hq; norm_num)
    (by norm_num)⟩

/-! ## C10: the minimum-confidence gate -/

/-- Every pattern the detector can emit has base confidence at least 30. -/
theorem detect_confidence_ge_30 (mt : ℚ) (t : TradeData) (w : WalletAnalysis)
    (m : MarketContext) : ∀ p ∈ detect_insider_patterns mt t w m, 30 ≤ p.confidence := by
  intro p hp
  simp only [detect_insider_patterns] at hp
  rcases List.mem_append.mp hp with hp | h6
  rotate_left
  · obtain ⟨_, rfl⟩ := mem_ite_singleton h6
    norm_num
  rcases List.mem_append.mp hp with hp | h5
  rotate_left
  · obtain ⟨_, rfl⟩ := mem_ite_singleton h5
    norm_num
  rcases List.mem_append.mp hp with hp | h4
  rotate_left
  · obtain ⟨_, rfl⟩ := mem_ite_singleton h4
    norm_num
  rcases List.mem_append.mp hp with hp | h3
  rotate_left
  · obtain ⟨_, rfl⟩ := mem_ite_singleton h3
    norm_num
  rcases List.mem_append.mp hp with h1 | h2
  · obtain ⟨_, rfl⟩ := mem_ite_singleton h1
    norm_num
  · obtain ⟨⟨hpos, ha, hr⟩, rfl⟩ := mem_ite_singleton h2
    refine le_min ?_ (by norm_num)
    have hx : (0 : ℚ) ≤
        (calculate_trade_size_usd t.amount t.price / w.average_trade_size - 5) * 10 := by
      nlinarith [hr]
    linarith

/-- The risk-score multiplier is always at least 1. -/
theorem full_multiplier_ge_one (c1 c2 : Prop) [Decidable c1] [Decidable c2]
    (b : Bool) (n : Nat) :
    (1 : ℚ) ≤ (if n ≥ 3 then
        (if b = true then (if c1 then 1 + 0.3 else if c2 then 1 + 0.15 else 1) + 0.4
         else (if c1 then 1 + 0.3 else if c2 then 1 + 0.15 else 1)) + 0.3
      else if n ≥ 2 then
        (if b = true then (if c1 then 1 + 0.3 else if c2 then 1 + 0.15 else 1) + 0.4
         else (if c1 then 1 + 0.3 else if c2 then 1 + 0.15 else 1)) + 0.15
      else
        (if b = true then (if c1 then 1 + 0.3 else if c2 then 1 + 0.15 else 1) + 0.4
         else (if c1 then 1 + 0.3 else if c2 then 1 + 0.15 else 1))) := by
  split_ifs <;> norm_num

/-- A non-empty pattern list whose confidences all reach 30 scores at
least 30. -/
theorem risk_score_ge_30 (mt : ℚ) (t : TradeData) (w : WalletAnalysis)
    (ps : List Pattern) (hne : ps ≠ []) (hconf : ∀ p ∈ ps, 30 ≤ p.confidence) :
    30 ≤ (calculate_risk_score mt ps t w).1 := by
  rcases ps with _ | ⟨q, l⟩
  · exact absurd rfl hne
  have hsum := mul_length_le_sum 30 ((q :: l).map Pattern.confidence) ?_
  rotate_left
  · intro x hx
    obtain ⟨a, ha, rfl⟩ := List.mem_map.mp hx
    exact hconf a ha
  simp only [List.length_map] at hsum
  simp only [calculate_risk_score, List.isEmpty_cons, Bool.false_eq_true, if_false, ite_false]
  apply round_to_one_decimal_ge_30
  refine le_min ?_ (by norm_num)
  have hn : (0 : ℚ) < ((q :: l).length : ℚ) := by exact_mod_cast Nat.succ_pos l.length
  have hA : 30 ≤ (List.map (fun x => x.confidence) (q :: l)).sum / ((q :: l).length : ℚ) := by
    rw [le_div_iff₀ hn]
    exact hsum
  have hM := full_multiplier_ge_one
    (calculate_trade_size_usd t.amount t.price ≥ mt * 5)
    (calculate_trade_size_usd t.amount t.price ≥ mt * 2) w.is_new_wallet (q :: l).length
  nlinarith [hA, hM]

/-- C10: every detector pattern has base confidence ≥ 30 and the multiplier
is ≥ 1, so a non-empty pattern list always scores at least 30; hence the
pipeline's hard-coded `confidence_score >= 30` gate never drops a trade for
which at least one pattern fired — such a trade always yields an alert. -/
theorem C10_min_confidence_gate_never_drops (mt : ℚ) (t : TradeData)
    (w : WalletAnalysis) (m : MarketContext) :
    (∀ p ∈ detect_insider_patterns mt t w m, 30 ≤ p.confidence) ∧
    (detect_insider_patterns mt t w m ≠ [] →
      30 ≤ (calculate_risk_score mt (detect_insider_patterns mt t w m) t w).1) ∧
    (∀ (env : GoldskyEnv) (now : Int) (a : Nat) (wa : WalletAnalysis),
      t.maker = some a →
      analyze_wallet_behavior_from_env env a now = some wa →
      wa.total_activities ≠ 0 →
      ¬ t.size_usd < mt →
      detect_insider_patterns mt t wa (get_market_context_from_env env t now) ≠ [] →
      (analyze_trade_for_insider_activity env mt now t).isSome = true) := by
  refine ⟨detect_confidence_ge_30 mt t w m, ?_, ?_⟩
  · intro hne
    exact risk_score_ge_30 mt t w _ hne (detect_confidence_ge_30 mt t w m)
  · intro env now a wa hmaker hwa hact hsize hne
    simp only [TradeData.size_usd] at hsize
    have hscore : 30 ≤ (calculate_risk_score mt
        (detect_insider_patterns mt t wa (get_market_context_from_env env t now)) t wa).1 :=
      risk_score_ge_30 mt t wa _ hne (detect_confidence_ge_30 mt t wa _)
    have hempty :
        ¬ (detect_insider_patterns mt t wa (get_market_context_from_env env t now)).isEmpty = true := by
      simpa [List.isEmpty_iff] using hne
    simp only [analyze_trade_for_insider_activity, analyze_trade_body, hmaker, hwa,
      if_neg hsize, if_neg hact, if_neg hempty, if_pos (ge_iff_le.mpr hscore)]
    rfl

/-- C10 witness: the concrete $20,000 trade with patterns firing produces an
alert through the pipeline. -/
theorem C10_witness :
    detect_insider_patterns 10000 sample_trade sample_wallet
      (get_market_context_from_env sample_env sample_trade 1000000) ≠ [] ∧
    (analyze_trade_for_insider_activity sample_env 10000 1000000 sample_trade).isSome = true := by
  constructor
  · norm_num +decide [detect_insider_patterns, sample_trade, sample_wallet, get_market_context_from_env,
      sample_env, empty_market_context, calculate_trade_size_usd]
  · refine (C10_min_confidence_gate_never_drops 10000 sample_trade sample_wallet
      empty_market_context).2.2 sample_env 1000000 1 sample_wallet rfl ?_ ?_ ?_ ?_
    · norm_num +decide [analyze_wallet_behavior_from_env, sample_env, analyze_wallet_behavior,
        sample_activity, sample_wallet, list_min_int, list_max_int, list_max_rat, List.filter,
        List.filterMap, List.dedup]
    · decide
    · norm_num [TradeData.size_usd, sample_trade, calculate_trade_size_usd]
    · norm_num +decide [detect_insider_patterns, sample_trade, sample_wallet, get_market_context_from_env,
        sample_env, empty_market_context, calculate_trade_size_usd]

/-! ## C4: the deduplication ledgers -/

/-- Entries of a dict after an assignment come from the old dict or are the
assigned pair. -/
theorem mem_dict_set {p : Nat × Int} {key : Nat} {v : Int} :
    ∀ {l : List (Nat × Int)}, p ∈ dict_set key v l → p ∈ l ∨ p = (key, v) := by
  intro l
  induction l with
  | nil =>
    intro hp
    simp only [dict_set] at hp
    simp at hp
    right
    exact hp
  | cons x rest ih =>
    intro hp
    simp only [dict_set] at hp
    split_ifs at hp with h
    · rcases List.mem_cons.mp hp with h1 | h1
      · right
        rw [h1, h]
      · left
        exact List.mem_cons_of_mem _ h1
    · rcases List.mem_cons.mp hp with h1 | h1
      · left
        rw [h1]
        exact List.mem_cons_self _ _
      · rcases ih h1 with h2 | h2
        · left
          exact List.mem_cons_of_mem _ h2
        · right
          exact h2

/-- Assigning a fresh key appends it, preserving dict order. -/
theorem dict_set_not_mem {key : Nat} {v : Int} :
    ∀ {l : List (Nat × Int)}, is_trade_processed key l = false →
      dict_set key v l = l ++ [(key, v)] := by
  intro l
  induction l with
  | nil =>
    intro _
    rfl
  | cons x rest ih =>
    intro h
    simp only [is_trade_processed, List.any_cons, Bool.or_eq_false_iff] at h
    simp only [dict_set]
    rw [if_neg (by simpa using h.1)]
    rw [ih h.2]
    rfl

/-- The age-based cleanup removes nothing when no entry is a week old. -/
theorem cleanup_fresh {now : Int} {m : List (Nat × Int)}
    (h : ∀ p ∈ m, ¬ p.2 < now - 604800) :
    cleanup_old_processed_trades now m = m := by
  unfold cleanup_old_processed_trades
  rw [List.filter_eq_self]
  intro a ha
  simpa using h a ha

/-- On an all-fresh ledger, `mark_trade_processed` is a plain insertion, even
past the size bound. -/
theorem mark_fresh {now : Int} {key : Nat} {processed : List (Nat × Int)}
    (h : ∀ p ∈ processed, ¬ p.2 < now - 604800) :
    mark_trade_processed now key processed = dict_set key now processed := by
  simp only [mark_trade_processed]
  split_ifs with hlen
  · apply cleanup_fresh
    intro p hp
    rcases mem_dict_set hp with h1 | h1
    · exact h p h1
    · rw [h1]
      omega
  · rfl

/-- The ledger obtained from `n` fresh distinct insertions holds exactly the
`n` inserted entries. -/
theorem ledger_after_eq : ∀ n : Nat,
    ledger_after n = (List.range n).map (fun i => (i, (604800 : Int))) := by
  intro n
  induction n with
  | zero => rfl
  | succ m ih =>
    unfold ledger_after at ih ⊢
    rw [List.range_succ, List.foldl_append, ih]
    simp only [List.foldl_cons, List.foldl_nil]
    rw [mark_fresh (by intro p hp; obtain ⟨i, hi, rfl⟩ := List.mem_map.mp hp; omega)]
    rw [dict_set_not_mem ?_]
    · simp [List.map_append]
    · simp only [is_trade_processed, List.any_eq_true, not_exists]
      rw [Bool.eq_false_iff]
      intro hc
      simp only [List.any_eq_true] at hc
      obtain ⟨p, hp, hpk⟩ := hc
      obtain ⟨i, hi, rfl⟩ := List.mem_map.mp hp
      simp only [decide_eq_true_eq] at hpk
      rw [hpk] at hi
      exact absurd (List.mem_range.mp hi) (by omega)

/-- C4 counterexample: after inserting 10001 distinct keys, all recent, the
`TradeAnalysisService` ledger holds 10001 entries — beyond the configured
maximum of 10000 — and the first-inserted key is still seen: no wholesale
clear happened on overflow. -/
theorem C4_counterexample_ledger_overflow :
    ¬ ((ledger_after 10001).length ≤ max_processed_trades) ∧
    is_trade_processed 0 (ledger_after 10001) = true := by
  rw [ledger_after_eq 10001]
  constructor
  · simp [max_processed_trades]
  · simp only [is_trade_processed, List.any_eq_true]
    refine ⟨(0, 604800), List.mem_map.mpr ⟨0, by simp, rfl⟩, by simp⟩

/-- C4 (amended): `TradeAnalysisService.mark_trade_processed` reacts to
overflow with an age-based cleanup that removes only week-old entries — on
an all-fresh ledger it is a plain insertion, so the size bound can be
exceeded and the first key stays seen; the wholesale clear lives in
`SuspiciousTradeDetector.clear_processed_trades`, which empties the ledger
whenever it is called with more than 10000 entries, after which no key is
seen. -/
theorem C4_amended_cleanup_and_clear :
    (∀ (now : Int) (key : Nat) (processed : List (Nat × Int)),
      (∀ p ∈ processed, ¬ p.2 < now - 604800) →
      mark_trade_processed now key processed = dict_set key now processed) ∧
    (∀ st : List (Nat × Nat × Nat), 10000 < st.length →
      clear_processed_trades st = [] ∧
      ∀ k : Nat × Nat × Nat, k ∉ clear_processed_trades st) := by
  constructor
  · intro now key processed h
    exact mark_fresh h
  · intro st h
    have hclear : clear_processed_trades st = [] := by
      unfold clear_processed_trades
      rw [if_pos h]
    refine ⟨hclear, fun k => ?_⟩
    rw [hclear]
    simp

/-- C4 witness: the amended claim at concrete ledgers. -/
theorem C4_amended_witness :
    mark_trade_processed 0 1 [(2, 0)] = dict_set 1 0 [(2, 0)] ∧
    clear_processed_trades ((List.range 10001).map fun i => (i, 0, 0)) = [] :=
  ⟨C4_amended_cleanup_and_clear.1 0 1 [(2, 0)] (by decide),
   (C4_amended_cleanup_and_clear.2 _ (by simp)).1⟩

/-! ## C7: at most one alert per dedup key -/

/-- The updated processed-trades set of `analyze_trade`. -/
theorem analyze_trade_snd (mt lb : ℚ) (now : Int) (st : List (Nat × Nat × Nat))
    (t : STrade) (fh : List WalletFunding) (th : WalletTradeHistory) :
    (analyze_trade mt lb now st t fh th).2 =
      if trade_key t ∈ st then st else trade_key t :: st := by
  simp only [analyze_trade]
  split_ifs <;> rfl

/-- The function `analyze_trade` never removes keys from the processed-trades set. -/
theorem analyze_trade_mem_of_mem {k : Nat × Nat × Nat} (mt lb : ℚ) (now : Int)
    {st : List (Nat × Nat × Nat)} (t : STrade) (fh : List WalletFunding)
    (th : WalletTradeHistory) (hk : k ∈ st) :
    k ∈ (analyze_trade mt lb now st t fh th).2 := by
  rw [analyze_trade_snd]
  split_ifs with h
  · exact hk
  · exact List.mem_cons_of_mem _ hk

/-- After `analyze_trade` the submitted trade's key is marked seen. -/
theorem analyze_trade_key_mem (mt lb : ℚ) (now : Int) (st : List (Nat × Nat × Nat))
    (t : STrade) (fh : List WalletFunding) (th : WalletTradeHistory) :
    trade_key t ∈ (analyze_trade mt lb now st t fh th).2 := by
  rw [analyze_trade_snd]
  split_ifs with h
  · exact h
  · exact List.mem_cons_self _ _

/-- A trade whose key is already seen is dropped with the set unchanged. -/
theorem analyze_trade_seen (mt lb : ℚ) (now : Int) {st : List (Nat × Nat × Nat)}
    {t : STrade} (fh : List WalletFunding) (th : WalletTradeHistory)
    (h : trade_key t ∈ st) :
    analyze_trade mt lb now st t fh th = (none, st) := by
  simp only [analyze_trade, if_pos h]

/-- Unfolding the emitted-alert count over one submission. -/
theorem emitted_for_key_cons (k : Nat × Nat × Nat) (s : Submission)
    (subs : List Submission) (o : Option SAlert) (outs : List (Option SAlert)) :
    emitted_for_key k (s :: subs) (o :: outs) =
      emitted_for_key k subs outs +
        (if decide (trade_key s.trade = k) && o.isSome then 1 else 0) := by
  simp [emitted_for_key, List.countP_cons]

/-- Once a key is in the processed-trades set, no later submission with that
key ever emits. -/
theorem run_detector_emitted_zero (mt lb : ℚ) (now : Int) (k : Nat × Nat × Nat) :
    ∀ (subs : List Submission) (st : List (Nat × Nat × Nat)), k ∈ st →
      emitted_for_key k subs (run_detector mt lb now st subs).1 = 0 := by
  intro subs
  induction subs with
  | nil =>
    intro st hk
    simp [run_detector, emitted_for_key]
  | cons s rest ih =>
    intro st hk
    simp only [run_detector]
    rw [emitted_for_key_cons]
    by_cases hks : trade_key s.trade = k
    · have hseen : trade_key s.trade ∈ st := by
        rw [hks]
        exact hk
      have hstep := analyze_trade_seen mt lb now s.funding_history s.trade_history hseen
      rw [hstep, ih st hk]
      simp
    · rw [ih _ (analyze_trade_mem_of_mem mt lb now s.trade s.funding_history s.trade_history hk)]
      simp [hks]

/-- C7: over any batch of submissions, at most one submission with a given
dedup key (transaction hash combined with maker and taker) produces an
alert: the first submission marks the key seen and every later one is
dropped. -/
theorem C7_at_most_one_alert_per_key (mt lb : ℚ) (now : Int)
    (st : List (Nat × Nat × Nat)) (subs : List Submission) (k : Nat × Nat × Nat) :
    emitted_for_key k subs (run_detector mt lb now st subs).1 ≤ 1 := by
  induction subs generalizing st with
  | nil => simp [run_detector, emitted_for_key]
  | cons s rest ih =>
    simp only [run_detector]
    rw [emitted_for_key_cons]
    by_cases hks : trade_key s.trade = k
    · have hmem : k ∈ (analyze_trade mt lb now st s.trade s.funding_history s.trade_history).2 := by
        rw [← hks]
        exact analyze_trade_key_mem mt lb now st s.trade s.funding_history s.trade_history
      rw [run_detector_emitted_zero mt lb now k rest _ hmem]
      split_ifs <;> omega
    · have h2 := ih ((analyze_trade mt lb now st s.trade s.funding_history s.trade_history).2)
      simp only [decide_eq_false hks, Bool.false_and, Bool.false_eq_true, if_false, add_zero]
      exact h2

/-! ## C9: exception containment -/

/-- C9 counterexample: an exception raised during market-context enrichment
is caught but does NOT produce the dropped outcome — the analysis continues
with an empty market context and this trade still emits an alert. -/
theorem C9_counterexample_market_error_still_alerts :
    sample_env.get_market_data 2 = Except.error 7 ∧
    analyze_trade_for_insider_activity sample_env 10000 1000000 sample_trade ≠ none := by
  refine ⟨rfl, ?_⟩
  norm_num +decide [analyze_trade_for_insider_activity, analyze_trade_body, sample_env,
    sample_trade, analyze_wallet_behavior_from_env, analyze_wallet_behavior, sample_activity,
    list_min_int, list_max_int, list_max_rat, List.filter, List.filterMap, List.dedup,
    get_market_context_from_env, empty_market_context, detect_insider_patterns,
    calculate_trade_size_usd, calculate_risk_score, round_to_one_decimal, round_eq]

/-- C9 (amended): an exception during wallet enrichment yields the dropped
outcome for that trade only, with every other trade of the batch processed
exactly as before; an exception during market-context enrichment is caught
inside the resolver and degrades to the empty context (analysis continues).
No exception escapes the per-trade analysis. -/
theorem C9_amended_exception_containment :
    (∀ (env : GoldskyEnv) (mt : ℚ) (now : Int) (t : TradeData) (ts : List TradeData)
      (a : Nat) (e : Nat),
      t.maker = some a →
      (env.get_user_activity a = .error e ∨ env.get_user_positions a = .error e) →
      analyze_trade_for_insider_activity env mt now t = none ∧
      process_trades env mt now (t :: ts) = none :: process_trades env mt now ts) ∧
    (∀ (env : GoldskyEnv) (t : TradeData) (now : Int) (tk mk : Nat) (e : Nat),
      t.token_id = some tk → t.market_id = some mk →
      env.get_market_data mk = .error e →
      get_market_context_from_env env t now = empty_market_context) := by
  constructor
  · intro env mt now t ts a e hmaker herr
    have hwa : analyze_wallet_behavior_from_env env a now = none := by
      rcases herr with h | h
      · simp [analyze_wallet_behavior_from_env, h]
      · cases hact : env.get_user_activity a with
        | error e2 => simp [analyze_wallet_behavior_from_env, hact]
        | ok acts => simp [analyze_wallet_behavior_from_env, hact, h]
    have hnone : analyze_trade_for_insider_activity env mt now t = none := by
      simp only [analyze_trade_for_insider_activity, analyze_trade_body, hmaker, hwa]
      rfl
    refine ⟨hnone, ?_⟩
    simp only [process_trades, hnone]
  · intro env t now tk mk e htk hmk hmd
    simp [get_market_context_from_env, htk, hmk, hmd]

/-- C9 witness: the amended statement at concrete environments — a failing
wallet fetch drops only its own trade, and a failing market fetch degrades
to the empty context. -/
theorem C9_amended_witness :
    analyze_trade_for_insider_activity failing_env 10000 0 sample_trade = none ∧
    process_trades failing_env 10000 0 (sample_trade :: [small_trade]) =
      none :: process_trades failing_env 10000 0 [small_trade] ∧
    get_market_context_from_env sample_env sample_trade 1000000 = empty_market_context :=
  ⟨(C9_amended_exception_containment.1 failing_env 10000 0 sample_trade [small_trade]
      1 3 rfl (Or.inl rfl)).1,
   (C9_amended_exception_containment.1 failing_env 10000 0 sample_trade [small_trade]
      1 3 rfl (Or.inl rfl)).2,
   C9_amended_exception_containment.2 sample_env sample_trade 1000000 1 2 7 rfl rfl rfl⟩

/-- C8 witness: a market ending 50 hours from now has time-to-expiry 50 and
is flagged as expiring soon. -/
theorem C8_witness :
    (market_context_from_end_date (some 180000) 0).is_expiring_soon = true := by
  have h := C8_time_to_expiry_and_expiring_flag (some 180000) 0
  apply h.2.mpr
  refine ⟨50, ?_, by norm_num, by norm_num⟩
  rw [h.1]
  norm_num

end PolymarketInsider
